import Mathlib

/-!
Shallow embedding of the `messenger_process` repository (Python):
  - `ipc/signals.py`        : signal enumerations
  - `ipc/message.py`        : the `Message` dictionary
  - `ipc/process_manager.py`: `ProcessManager`, `ChildManager`
  - `ipc/messenger_process.py`: `MessengerProcess`
  - `timing/timed_loop.py`  : `TimedLoop`, `SynchronizedTimedLoop`,
                              `get_timestep_lookup_function_by_player`

Python conventions modelled explicitly:
  - a raised exception becomes `Except.error` carrying a `PErr` naming the
    Python exception and the raise site;
  - a `multiprocessing` connection becomes an explicit queue of the items
    waiting to be received on it (`Chan`); `recv` pops the head;
  - wall-clock readings of `time.perf_counter()` are passed in as explicit
    rational arguments (one per call site inside the wrapped function);
  - `proc.start()` is recorded in an explicit spawn log (list of pids), so
    that "a process was spawned" is observable.
-/

namespace MessengerProcessRepo

/-- `MP_TRANSPORT` enum from `ipc/signals.py`. -/
inductive MPTransport
  | STOP
  | HEARTBEAT
  deriving DecidableEq, BEq, Repr

/-- `MESSENGER_SIGNAL` enum from `ipc/signals.py` (members A, B, C). -/
inductive MSignal
  | A
  | B
  | C
  deriving DecidableEq, BEq, Repr

/-- A signal value: a member of one of the enumerations in `ipc/signals.py`.
Only the namespaces the claims exercise are listed; the others are isomorphic
single-member enums. -/
inductive Signal
  | transport (t : MPTransport)
  | messenger (s : MSignal)
  | dxl
  | vrep
  | bullet
  | jlc
  deriving DecidableEq, BEq, Repr

/-- A Python value appearing as a message field or handler result. -/
inductive Val
  | vInt (n : Int)
  | vStr (s : String)
  | vSig (sg : Signal)
  | vNone
  deriving DecidableEq, BEq, Repr

/-- `Message` from `ipc/message.py`: a dict that always carries a `type`
field (a signal) plus arbitrary further string-keyed fields. -/
structure Msg where
  type : Signal
  fields : List (String × Val)

/-- An item travelling on a `multiprocessing` connection: either a bare
enum member (as `close_process` sends `MP_TRANSPORT.STOP`), or a `Message`
dict, or some other raw payload. -/
inductive ChanItem
  | transport (t : MPTransport)
  | message (m : Msg)
  | raw (v : Val)

/-- The Python exceptions the embedded code can raise, one constructor per
exception kind and raise site. -/
inductive PErr
  | runtimeErrorDuplicate
      -- `add_process`: RuntimeError on a duplicate process name
  | keyErrorProc
      -- KeyError from `self.ext_proc[name]` on a missing name
  | valueErrorNoParent
      -- `_check_exit_condition`: ValueError "as master process"
  | valueErrorSendUp
      -- `send`: ValueError "send() defaults to sending up to parent."
  | valueErrorNoMessage
      -- `send`: ValueError "Must send a message"
  | attributeErrorNone
      -- AttributeError: calling a method on `None` (unguarded deref)
  | attributeErrorSignal
      -- `process_message`: AttributeError "... is an unrecognized signal"
  | typeErrorSubscript
      -- TypeError: `msg['type']` on a non-dict payload
  | blockedForever
      -- models `recv()` blocking forever on an empty connection
  deriving DecidableEq, BEq, Repr

/-- The queue of items waiting to be received on one side of a duplex
connection. -/
abbrev Chan := List ChanItem

/-- `ProcessReference` named tuple from `ipc/process_manager.py`.
`link_to_child_in` is the queue waiting at the manager's end of the pipe to
the child; `sent_to_child` records what the manager has sent down it;
`proc` is the pid of the spawned OS process. -/
structure ProcRef where
  name : String
  link_to_child_in : Chan
  sent_to_child : Chan
  proc : Nat

/-- `ProcessManager` state (`ipc/process_manager.py`, `__init__`):
`name`, child table `ext_proc` (an insertion-ordered dict, modelled as an
association list with unique keys), optional `link_to_parent` (the queue of
items waiting from the parent; `none` means root), and the `msg` slot. -/
structure PMState where
  name : String
  ext_proc : List (String × ProcRef)
  link_to_parent : Option Chan
  msg : Option ChanItem

/-- `ProcessManager.__init__(name, link_to_parent=None)`. -/
def ProcessManager.init (name : String) (link_to_parent : Option Chan := none) :
    PMState :=
  { name := name, ext_proc := [], link_to_parent := link_to_parent, msg := none }

/-- `ChildManager.__init__(name, link_to_parent)`: delegates to
`ProcessManager.__init__` with the same arguments; the parameter has no
default but its value is not validated, so Python permits passing `None`. -/
def ChildManager.init (name : String) (link_to_parent : Option Chan) : PMState :=
  ProcessManager.init name link_to_parent

/-- The log of `proc.start()` calls: pids of every OS process spawned so
far, in order. A fresh pid is the log's length. -/
abbrev SpawnLog := List Nat

/-- `ProcessManager.add_process(name, f, ...)`: creates a pipe, starts the
process (recorded in the spawn log), and only then checks for a duplicate
name, raising RuntimeError if `name` is already registered; otherwise
registers a `ProcessReference` under `name`. -/
def add_process (s : PMState) (log : SpawnLog) (name : String) :
    (PMState × SpawnLog) × Except PErr Unit :=
  let pid := log.length
  let log' := log ++ [pid]
  if (s.ext_proc.lookup name).isSome then
    ((s, log'), Except.error PErr.runtimeErrorDuplicate)
  else
    (({ s with ext_proc :=
          s.ext_proc ++ [(name, { name := name, link_to_child_in := [],
                                  sent_to_child := [], proc := pid })] },
       log'),
     Except.ok ())

/-- Remove key `n` from an association list (Python `del d[n]`, first
occurrence). -/
def removeKey (l : List (String × ProcRef)) (n : String) :
    List (String × ProcRef) :=
  match l with
  | [] => []
  | (k, v) :: rest =>
      if k == n then rest else (k, v) :: removeKey rest n

/-- `ProcessManager.close_process(name)`: looks `name` up in the child
table with `self.ext_proc[name]` (KeyError if absent), sends
`MP_TRANSPORT.STOP` down the child's connection, joins with a 1 second
deadline, then deletes the entry (the `del` is wrapped in a KeyError guard
in the source, but the earlier subscript has already raised if the name is
absent). -/
def close_process (s : PMState) (name : String) : Except PErr PMState :=
  match s.ext_proc.lookup name with
  | none => Except.error PErr.keyErrorProc
  | some ref =>
      let ref' := { ref with sent_to_child :=
                      ref.sent_to_child ++ [ChanItem.transport MPTransport.STOP] }
      let table := (s.ext_proc.map (fun kv =>
        if kv.1 == name then (kv.1, ref') else kv))
      Except.ok { s with ext_proc := removeKey table name }

/-- `ProcessManager.poll(proc_name=None, timeout=0)`: picks the connection
(`link_to_parent` when `proc_name` is None, else the named child's), then
`connection.poll(timeout)`. When the chosen connection is `None` the
attribute access raises AttributeError. `connection.poll` reports whether
an item is waiting (the timeout only affects how long a real poll blocks,
which has no purely functional content; the returned truth value is
"an item is waiting"). -/
def poll (s : PMState) (proc_name : Option String) : Except PErr Bool :=
  match proc_name with
  | none =>
      match s.link_to_parent with
      | none => Except.error PErr.attributeErrorNone
      | some q => Except.ok (!q.isEmpty)
  | some n =>
      match s.ext_proc.lookup n with
      | none => Except.error PErr.keyErrorProc
      | some ref => Except.ok (!ref.link_to_child_in.isEmpty)

/-- Pop the head of the identified connection, returning the received item
and the state with that item removed. -/
def recvFrom (s : PMState) (proc_name : Option String) :
    Except PErr (ChanItem × PMState) :=
  match proc_name with
  | none =>
      match s.link_to_parent with
      | none => Except.error PErr.attributeErrorNone
      | some [] => Except.error PErr.blockedForever
      | some (item :: rest) =>
          Except.ok (item, { s with link_to_parent := some rest })
  | some n =>
      match s.ext_proc.lookup n with
      | none => Except.error PErr.keyErrorProc
      | some ref =>
          match ref.link_to_child_in with
          | [] => Except.error PErr.blockedForever
          | item :: rest =>
              let ref' := { ref with link_to_child_in := rest }
              Except.ok (item,
                { s with ext_proc := s.ext_proc.map (fun kv =>
                    if kv.1 == n then (kv.1, ref') else kv) })

/-- `ProcessManager.recv(proc_name=None)`: `self.link_to_parent.recv()`
when `proc_name` is None (AttributeError when `link_to_parent` is None),
else the named child's connection (KeyError when absent). A real `recv` on
an empty connection blocks forever, modelled as `blockedForever`. -/
def recv (s : PMState) (proc_name : Option String) :
    Except PErr (ChanItem × PMState) :=
  recvFrom s proc_name

/-- `ProcessManager.msg_is_stop_signal(msg)` (static): true exactly when
the item is of type `MP_TRANSPORT` and equals `MP_TRANSPORT.STOP`. -/
def msg_is_stop_signal (item : ChanItem) : Bool :=
  match item with
  | ChanItem.transport MPTransport.STOP => true
  | _ => false

/-- `ProcessManager._check_exit_condition()`: raises ValueError when
`link_to_parent` is None; otherwise a non-blocking poll, and when an item
is waiting receive it; a stop signal yields True, any other item is stored
in the `msg` slot and yields False; nothing waiting yields False. -/
def check_exit_condition (s : PMState) : Except PErr (Bool × PMState) :=
  match s.link_to_parent with
  | none => Except.error PErr.valueErrorNoParent
  | some _ =>
      match poll s none with
      | Except.error e => Except.error e
      | Except.ok b =>
          if b then
            match recv s none with
            | Except.error e => Except.error e
            | Except.ok (item, s') =>
                if msg_is_stop_signal item then
                  Except.ok (true, s')
                else
                  Except.ok (false, { s' with msg := some item })
          else
            Except.ok (false, s)

/-- `MessengerProcess` state (`ipc/messenger_process.py`): the inherited
`ProcessManager` state plus the `recognized_signals` dict (signal → handler;
a handler receives the whole keyword-splatted message) and the
`should_stop` flag. -/
structure MPState where
  toPM : PMState
  recognized_signals : List (Signal × (Msg → Val))
  should_stop : Bool

/-- `MessengerProcess.add_signal(signal, fn)`: dict assignment — replaces
any prior entry for the signal, else appends. -/
def add_signal (s : MPState) (sg : Signal) (fn : Msg → Val) : MPState :=
  if (s.recognized_signals.lookup sg).isSome then
    { s with recognized_signals := s.recognized_signals.map (fun kv =>
        if kv.1 == sg then (kv.1, fn) else kv) }
  else
    { s with recognized_signals := s.recognized_signals ++ [(sg, fn)] }

/-- `MessengerProcess.heartbeat(*args, **kwargs)`: logs the process name
and pid and returns None; accepts and ignores every message field. -/
def heartbeatHandler : Msg → Val := fun _ => Val.vNone

/-- `MessengerProcess.__init__(name, link_to_parent=None)`: the inherited
init, an empty handler table, registration of the heartbeat handler under
`MP_TRANSPORT.HEARTBEAT`, and `should_stop = False`. -/
def MessengerProcess.init (name : String) (link_to_parent : Option Chan := none) :
    MPState :=
  add_signal
    { toPM := ProcessManager.init name link_to_parent,
      recognized_signals := [], should_stop := false }
    (Signal.transport MPTransport.HEARTBEAT) heartbeatHandler

/-- `MessengerProcess.process_message(msg)`: reads `msg['type']`
(TypeError when the received item is not a dict); when the signal is in
`recognized_signals` the handler is invoked on the keyword-splatted
message and its result returned, otherwise AttributeError
"... is an unrecognized signal" is raised. -/
def process_message (s : MPState) (item : ChanItem) : Except PErr Val :=
  match item with
  | ChanItem.message m =>
      match s.recognized_signals.lookup m.type with
      | some fn => Except.ok (fn m)
      | none => Except.error PErr.attributeErrorSignal
  | _ => Except.error PErr.typeErrorSubscript

/-- `MessengerProcess.there_is_a_new_message(proc_name=None, timeout=0)`:
delegates to `poll`. -/
def there_is_a_new_message (s : MPState) (proc_name : Option String) :
    Except PErr Bool :=
  poll s.toPM proc_name

/-- Lift a receive on the inherited state to `MPState`. -/
def recvMP (s : MPState) (proc_name : Option String) :
    Except PErr (ChanItem × MPState) :=
  match recv s.toPM proc_name with
  | Except.error e => Except.error e
  | Except.ok (item, pm') => Except.ok (item, { s with toPM := pm' })

/-- `MessengerProcess.handle_messages(proc_name=None)`: non-blocking poll;
when an item waits, receive it; a stop sentinel sets `should_stop` (no
dispatch), anything else is dispatched through `process_message`; returns
True when an item was received, False immediately otherwise. -/
def handle_messages (s : MPState) (proc_name : Option String) :
    Except PErr (Bool × MPState) :=
  match there_is_a_new_message s proc_name with
  | Except.error e => Except.error e
  | Except.ok b =>
      if b then
        match recvMP s proc_name with
        | Except.error e => Except.error e
        | Except.ok (item, s') =>
            if msg_is_stop_signal item then
              Except.ok (true, { s' with should_stop := true })
            else
              match process_message s' item with
              | Except.error e => Except.error e
              | Except.ok _ => Except.ok (true, s')
      else
        Except.ok (false, s)

/-- `MessengerProcess.get_messages(proc_name=None)`: returns the waiting
item when one is present, else None; no stop-sentinel special case. -/
def get_messages (s : MPState) (proc_name : Option String) :
    Except PErr (Option ChanItem × MPState) :=
  match there_is_a_new_message s proc_name with
  | Except.error e => Except.error e
  | Except.ok b =>
      if b then
        match recvMP s proc_name with
        | Except.error e => Except.error e
        | Except.ok (item, s') => Except.ok (some item, s')
      else
        Except.ok (none, s)

/-- `MessengerProcess.should_stop_loop()`: returns the flag. -/
def should_stop_loop (s : MPState) : Bool :=
  s.should_stop

/-- `MessengerProcess.setup(**kwargs)`: pass. -/
def setup (s : MPState) : MPState := s

/-- `MessengerProcess.loop_routine()`: pass. -/
def loop_routine (s : MPState) : MPState := s

/-- `MessengerProcess.teardown(**kwargs)`: pass. -/
def teardown (s : MPState) : MPState := s

/-- `MessengerProcess.heartbeat` as an operation: logs only, state
untouched. -/
def heartbeatOp (s : MPState) : MPState := s

/-- `TimedLoop` state (`timing/timed_loop.py`, `__init__`): call counter
`i` (starts 0), period `dt`, origin `init_time` (None until first call).
Clock readings are rationals. -/
structure TLState where
  i : Nat
  dt : ℚ
  init_time : Option ℚ

/-- `TimedLoop.__init__(dt)`. -/
def TimedLoop.init (dt : ℚ) : TLState :=
  { i := 0, dt := dt, init_time := none }

/-- Outcome of one invocation of a wrapped function: the updated loop
state, the duration passed to `time.sleep`, and the wrapped function's
result. -/
structure PacedCall (α : Type) where
  state : TLState
  sleep : ℚ
  result : α

/-- One invocation of the wrapper produced by `TimedLoop.__call__`:
increment `i`; compute `des_end_time = i*dt + init_time`, setting
`init_time` to the current clock first when it is None (`now_sched`);
run the body (whose result `res` and post-body clock `now_after` are
passed in); sleep `max(des_end_time - now_after, 0)`; return the body's
result. -/
def TimedLoop.callWrapped {α : Type} (s : TLState) (now_sched now_after : ℚ)
    (res : α) : PacedCall α :=
  let i' := s.i + 1
  let t0 := match s.init_time with
    | some t0 => t0
    | none => now_sched
  let des_end_time := (i' : ℚ) * s.dt + t0
  let sleep := max (des_end_time - now_after) 0
  { state := { i := i', dt := s.dt, init_time := some t0 },
    sleep := sleep, result := res }

/-- `TimedLoop.change_dt(new_dt)`: counter to 0, period to `new_dt`,
origin to None. -/
def change_dt (s : TLState) (new_dt : ℚ) : TLState :=
  { i := 0, dt := new_dt, init_time := none }

/-- `TimedLoop.reset_start_time()`: counter to 0, origin to None, period
kept. -/
def reset_start_time (s : TLState) : TLState :=
  { i := 0, dt := s.dt, init_time := none }

/-- `SynchronizedTimedLoop` state: the inherited `TimedLoop` state plus
`iterations_per_update` and the zero-argument `timestep_lookup_fn`. -/
structure STLState where
  toTL : TLState
  iterations_per_update : Nat
  timestep_lookup_fn : Unit → ℚ

/-- `SynchronizedTimedLoop.synchronize()`: fetch a new period from the
lookup function and install it through `change_dt`. -/
def synchronize (s : STLState) : STLState :=
  let desired_dt := s.timestep_lookup_fn ()
  { s with toTL := change_dt s.toTL desired_dt }

/-- Outcome of one invocation of a `SynchronizedTimedLoop` wrapper. -/
structure STLPacedCall (α : Type) where
  state : STLState
  sleep : ℚ
  result : α

/-- One invocation of the wrapper produced by
`SynchronizedTimedLoop.__call__`: identical pacing mechanics to
`TimedLoop.callWrapped` (the sleep is additionally guarded against
OverflowError, which only logs), and after the sleep, when the counter has
reached `iterations_per_update`, `synchronize()` runs before the result is
returned. -/
def SynchronizedTimedLoop.callWrapped {α : Type} (s : STLState)
    (now_sched now_after : ℚ) (res : α) : STLPacedCall α :=
  let base := TimedLoop.callWrapped s.toTL now_sched now_after res
  let s' := { s with toTL := base.state }
  let s'' := if base.state.i ≥ s.iterations_per_update then synchronize s' else s'
  { state := s'', sleep := base.sleep, result := base.result }

/-- `PLAYER` enum (from the `ipc.enums` module imported by
`timing/timed_loop.py`; the module itself ships outside `src/`, but only
membership and truthiness of its members matter here). -/
inductive PLAYER
  | DXL
  | BULLET
  | VREP
  deriving DecidableEq, BEq, Repr

/-- The `player` argument as an arbitrary Python value: an enum member, a
string, or None. -/
inductive PlayerArg
  | enumMember (p : PLAYER)
  | strVal (s : String)
  | noneVal
  deriving DecidableEq, BEq, Repr

/-- Python truthiness of the bare expression `ipc.enums.PLAYER.BULLET`:
an enum member is always truthy. -/
def bulletMemberTruthy : Bool := true

/-- The branches of the `if/elif/else` in
`get_timestep_lookup_function_by_player`. -/
inductive PlayerBranch
  | dxlClock
  | vrepClock
  | raiseValueError
  deriving DecidableEq, BEq, Repr

/-- Branch selection in `get_timestep_lookup_function_by_player`: the
first condition is literally
`player == ipc.enums.PLAYER.DXL or ipc.enums.PLAYER.BULLET` — the second
operand is the bare enum member, evaluated for truthiness. -/
def playerBranch (player : PlayerArg) : PlayerBranch :=
  if (player == PlayerArg.enumMember PLAYER.DXL) || bulletMemberTruthy then
    PlayerBranch.dxlClock
  else if player == PlayerArg.enumMember PLAYER.VREP then
    PlayerBranch.vrepClock
  else
    PlayerBranch.raiseValueError

/-- The exceptions `get_timestep_lookup_function_by_player` can raise:
the explicit ValueError of its else-branch, and the NameError from
`mem.DATA_CLOCK` / `mem.DATA_VREP` — the `mem` import is commented out in
`timing/timed_loop.py`, so the name is undefined at every use. -/
inductive TLoopErr
  | valueErrorPlayer
  | nameErrorMem
  deriving DecidableEq, BEq, Repr

/-- `get_timestep_lookup_function_by_player(control_loop_period, player)`:
selects a memory location by branch (the dxl and vrep branches both
dereference the undefined name `mem` and raise NameError as shipped), or
raises ValueError on the else-branch. -/
def get_timestep_lookup_function_by_player (control_loop_period : ℚ)
    (player : PlayerArg) : Except TLoopErr (Unit → ℚ) :=
  match playerBranch player with
  | PlayerBranch.dxlClock => Except.error TLoopErr.nameErrorMem
  | PlayerBranch.vrepClock => Except.error TLoopErr.nameErrorMem
  | PlayerBranch.raiseValueError => Except.error TLoopErr.valueErrorPlayer

/-! Concrete states used by counterexamples and witnesses. -/

/-- A manager that already has one registered child named `child`
(pid 0). -/
def pmWithChild : PMState :=
  { name := "master",
    ext_proc := [("child",
      { name := "child", link_to_child_in := [], sent_to_child := [],
        proc := 0 })],
    link_to_parent := none, msg := none }

/-- C1 counterexample: on `pmWithChild`, whose table already holds
`child` and whose spawn log holds the single pid 0, a second
`add_process "child"` raises the duplicate-name RuntimeError and leaves
the table unchanged — but the spawn log has grown to `[0, 1]`: a second
OS process was started before the duplicate check and is leaked
(unregistered, never sent a stop), so the claim's "no new child process
is spawned or leaked" is false. -/
theorem add_process_duplicate_spawn_leak :
    (add_process pmWithChild [0] "child").2
        = Except.error PErr.runtimeErrorDuplicate ∧
    (add_process pmWithChild [0] "child").1.1 = pmWithChild ∧
    (add_process pmWithChild [0] "child").1.2 = [0, 1] :=
  ⟨rfl, rfl, rfl⟩

/-- C1 (amended): whenever `name` is already present in the child table,
`add_process` raises the duplicate-name RuntimeError and leaves the
manager's state (in particular the child table) unchanged, but exactly one
new OS process has been spawned by the call and is leaked: the spawn log
grows by exactly the one fresh pid. -/
theorem add_process_duplicate_raises_after_spawn
    (s : PMState) (log : SpawnLog) (name : String)
    (h : (s.ext_proc.lookup name).isSome = true) :
    (add_process s log name).2 = Except.error PErr.runtimeErrorDuplicate ∧
    (add_process s log name).1.1 = s ∧
    (add_process s log name).1.2 = log ++ [log.length] := by
  unfold add_process
  simp [h]

/-- Witness for C1's amended theorem at `pmWithChild`. -/
theorem add_process_duplicate_raises_after_spawn_witness :
    (add_process pmWithChild [0] "child").2
        = Except.error PErr.runtimeErrorDuplicate ∧
    (add_process pmWithChild [0] "child").1.1 = pmWithChild ∧
    (add_process pmWithChild [0] "child").1.2 = [0] ++ [List.length [0]] :=
  add_process_duplicate_raises_after_spawn pmWithChild [0] "child" rfl

/-- C3: `close_process` on a name absent from the child table raises
KeyError at the `self.ext_proc[name]` subscript (before ever reaching the
KeyError-guarded `del`), rather than logging and returning normally as
the spec states. Evaluated at the concrete failing input: a fresh
manager with an empty table, closed with the name `ghost`. -/
theorem close_process_absent_name_raises :
    close_process (ProcessManager.init "master") "ghost"
      = Except.error PErr.keyErrorProc :=
  rfl

/-- C4: in `get_timestep_lookup_function_by_player` the first branch
condition is `player == PLAYER.DXL or PLAYER.BULLET`, whose second operand
is a bare (truthy) enum member, so every player value — recognized or not
— takes the DXL/BULLET branch and the ValueError branch is unreachable;
the taken branch then dereferences the undefined name `mem` and raises
NameError. Evaluated at the concrete failing input `player = "bogus"`,
and shown for every player value. -/
theorem player_lookup_valueerror_unreachable :
    playerBranch (PlayerArg.strVal "bogus") = PlayerBranch.dxlClock ∧
    get_timestep_lookup_function_by_player 1 (PlayerArg.strVal "bogus")
      = Except.error TLoopErr.nameErrorMem ∧
    (∀ p : PlayerArg, playerBranch p = PlayerBranch.dxlClock) ∧
    (∀ q : ℚ, ∀ p : PlayerArg,
      get_timestep_lookup_function_by_player q p
        = Except.error TLoopErr.nameErrorMem) := by
  refine ⟨rfl, rfl, ?_, ?_⟩
  · intro p
    unfold playerBranch bulletMemberTruthy
    simp
  · intro q p
    unfold get_timestep_lookup_function_by_player
    unfold playerBranch bulletMemberTruthy
    simp

/-- C9 counterexample: `ChildManager.__init__` performs no validation of
its parent-channel argument, so passing `None` succeeds: a ChildManager
with an absent parent channel is created (construction is total and just
delegates to `ProcessManager.__init__`), contradicting "cannot be
created". -/
theorem childmanager_accepts_absent_parent :
    (ChildManager.init "kid" none).link_to_parent = none ∧
    ChildManager.init "kid" none = ProcessManager.init "kid" none :=
  ⟨rfl, rfl⟩

/-- C9 (amended): constructing a ChildManager requires the parent-channel
argument to be supplied (the parameter has no default), but its value is
never validated: construction always succeeds, stores whatever channel
value was passed — including an absent one — and adds no further state or
checks beyond `ProcessManager.__init__`. -/
theorem childmanager_stores_argument_unchecked
    (name : String) (link : Option Chan) :
    (ChildManager.init name link).link_to_parent = link ∧
    (ChildManager.init name link).ext_proc = [] ∧
    ChildManager.init name link = ProcessManager.init name link :=
  ⟨rfl, rfl, rfl⟩

/-- C10: on a root manager (absent parent channel), `poll` and `recv`
with an absent process name dereference the `None` parent connection and
raise an unguarded AttributeError — distinct from the documented KeyError
(NotFound) and ValueError (InvalidArgument) failure kinds — while
`_check_exit_condition` alone guards this state with an explicit
ValueError. -/
theorem root_poll_recv_unguarded (s : PMState)
    (h : s.link_to_parent = none) :
    poll s none = Except.error PErr.attributeErrorNone ∧
    recv s none = Except.error PErr.attributeErrorNone ∧
    check_exit_condition s = Except.error PErr.valueErrorNoParent ∧
    PErr.attributeErrorNone ≠ PErr.keyErrorProc ∧
    PErr.attributeErrorNone ≠ PErr.valueErrorNoParent ∧
    PErr.attributeErrorNone ≠ PErr.runtimeErrorDuplicate := by
  refine ⟨?_, ?_, ?_, by decide, by decide, by decide⟩
  · unfold poll
    rw [h]
  · unfold recv recvFrom
    rw [h]
  · unfold check_exit_condition
    rw [h]

/-- Witness for C10 at a concrete root manager. -/
theorem root_poll_recv_unguarded_witness :
    poll (ProcessManager.init "boss") none
        = Except.error PErr.attributeErrorNone ∧
    recv (ProcessManager.init "boss") none
        = Except.error PErr.attributeErrorNone ∧
    check_exit_condition (ProcessManager.init "boss")
        = Except.error PErr.valueErrorNoParent ∧
    PErr.attributeErrorNone ≠ PErr.keyErrorProc ∧
    PErr.attributeErrorNone ≠ PErr.valueErrorNoParent ∧
    PErr.attributeErrorNone ≠ PErr.runtimeErrorDuplicate :=
  root_poll_recv_unguarded (ProcessManager.init "boss") rfl

/-- A handler that returns the `val` field of the message it receives
(the keyword-splat convention delivers every message field to the
handler). -/
def valHandler : Msg → Val := fun m =>
  match m.fields.lookup "val" with
  | some v => v
  | none => Val.vNone

/-- A messenger with `valHandler` registered under signal A. -/
def mpWithA : MPState :=
  add_signal (MessengerProcess.init "m") (Signal.messenger MSignal.A) valHandler

/-- The message `{type: MESSENGER_SIGNAL.A, val: 5}`. -/
def msgA5 : Msg :=
  { type := Signal.messenger MSignal.A, fields := [("val", Val.vInt 5)] }

/-- C5: `process_message` on a message whose type has a registered handler
invokes that handler on the keyword-splatted message and returns its
result; on a message whose type has no registered handler it raises the
"unrecognized signal" AttributeError (the error is returned, not
swallowed — no value is produced). -/
theorem process_message_dispatch (s : MPState) (m : Msg) :
    (∀ fn, s.recognized_signals.lookup m.type = some fn →
       process_message s (ChanItem.message m) = Except.ok (fn m)) ∧
    (s.recognized_signals.lookup m.type = none →
       process_message s (ChanItem.message m)
         = Except.error PErr.attributeErrorSignal) := by
  constructor
  · intro fn h
    simp [process_message, h]
  · intro h
    simp [process_message, h]

/-- Witness for C5: the registered `valHandler` applied to
`{type: A, val: 5}` yields 5, and a message of type B (no handler) yields
the unrecognized-signal error. -/
theorem process_message_dispatch_witness :
    process_message mpWithA (ChanItem.message msgA5) = Except.ok (Val.vInt 5) ∧
    process_message (MessengerProcess.init "m")
        (ChanItem.message { type := Signal.messenger MSignal.B, fields := [] })
      = Except.error PErr.attributeErrorSignal :=
  ⟨(process_message_dispatch mpWithA msgA5).1 valHandler rfl,
   (process_message_dispatch (MessengerProcess.init "m")
      { type := Signal.messenger MSignal.B, fields := [] }).2 rfl⟩

/-- C2: one invocation of a `TimedLoop`-wrapped function, with strictly
positive period: the counter increments by one; the origin is set to the
schedule-time clock reading exactly when it was absent, otherwise kept;
the target is `(i+1)·dt + t0`; the sleep is `max(target − now_after, 0)`,
hence never negative; the wrapped function's result is returned; and the
sleep is antitone in the post-body clock reading, so an overrun (a later
`now_after`) can only shorten the sleep, never lengthen it. -/
theorem timedloop_call_spec {α : Type} (s : TLState)
    (now_sched now_after now_after' : ℚ) (res : α) (hdt : 0 < s.dt) :
    (TimedLoop.callWrapped s now_sched now_after res).state.i = s.i + 1 ∧
    (TimedLoop.callWrapped s now_sched now_after res).state.dt = s.dt ∧
    (TimedLoop.callWrapped s now_sched now_after res).state.init_time
      = some (s.init_time.getD now_sched) ∧
    (TimedLoop.callWrapped s now_sched now_after res).sleep
      = max (((s.i + 1 : ℕ) : ℚ) * s.dt + s.init_time.getD now_sched - now_after) 0 ∧
    0 ≤ (TimedLoop.callWrapped s now_sched now_after res).sleep ∧
    (TimedLoop.callWrapped s now_sched now_after res).result = res ∧
    (now_after ≤ now_after' →
      (TimedLoop.callWrapped s now_sched now_after' res).sleep
        ≤ (TimedLoop.callWrapped s now_sched now_after res).sleep) := by
  unfold TimedLoop.callWrapped
  cases s.init_time with
  | none =>
      refine ⟨rfl, rfl, rfl, rfl, le_max_right _ _, rfl, ?_⟩
      intro hle
      exact max_le_max (sub_le_sub_left hle _) le_rfl
  | some t0 =>
      refine ⟨rfl, rfl, rfl, rfl, le_max_right _ _, rfl, ?_⟩
      intro hle
      exact max_le_max (sub_le_sub_left hle _) le_rfl

/-- Witness for C2 at a fresh loop of period 1: first call from clock 0,
body ending at clock 0, sleeps 1 and increments the counter to 1; and a
body ending later (clock 5) sleeps no more than one ending at 0. -/
theorem timedloop_call_spec_witness :
    (TimedLoop.callWrapped (TimedLoop.init 1) 0 0 true).state.i = 1 ∧
    0 ≤ (TimedLoop.callWrapped (TimedLoop.init 1) 0 0 true).sleep ∧
    (TimedLoop.callWrapped (TimedLoop.init 1) 0 5 true).sleep
      ≤ (TimedLoop.callWrapped (TimedLoop.init 1) 0 0 true).sleep :=
  ⟨(timedloop_call_spec (TimedLoop.init 1) 0 0 5 true
      (by norm_num [TimedLoop.init])).1,
   (timedloop_call_spec (TimedLoop.init 1) 0 0 5 true
      (by norm_num [TimedLoop.init])).2.2.2.2.1,
   (timedloop_call_spec (TimedLoop.init 1) 0 0 5 true
      (by norm_num [TimedLoop.init])).2.2.2.2.2.2 (by norm_num)⟩

/-- C7: one invocation of a `SynchronizedTimedLoop`-wrapped function has
exactly the pacing mechanics of the plain `TimedLoop` wrapper (same sleep,
same result, acting on the inherited state), and after the sleep step,
exactly when the incremented counter has reached or exceeded
`iterations_per_update`, `synchronize()` runs: the lookup function is
consulted and its result installed with the `change_dt` reset semantics
(counter 0, origin absent, `dt` the looked-up value); below the threshold
the inherited state is exactly the plain wrapper's. The resync interval
and lookup function fields are never changed. -/
theorem stl_call_spec {α : Type} (s : STLState) (now_sched now_after : ℚ)
    (res : α) :
    (SynchronizedTimedLoop.callWrapped s now_sched now_after res).sleep
      = (TimedLoop.callWrapped s.toTL now_sched now_after res).sleep ∧
    (SynchronizedTimedLoop.callWrapped s now_sched now_after res).result = res ∧
    (s.toTL.i + 1 ≥ s.iterations_per_update →
      (SynchronizedTimedLoop.callWrapped s now_sched now_after res).state.toTL
        = { i := 0, dt := s.timestep_lookup_fn (), init_time := none }) ∧
    (s.toTL.i + 1 < s.iterations_per_update →
      (SynchronizedTimedLoop.callWrapped s now_sched now_after res).state.toTL
        = (TimedLoop.callWrapped s.toTL now_sched now_after res).state) ∧
    (SynchronizedTimedLoop.callWrapped s now_sched now_after res).state.iterations_per_update
      = s.iterations_per_update ∧
    (SynchronizedTimedLoop.callWrapped s now_sched now_after res).state.timestep_lookup_fn
      = s.timestep_lookup_fn := by
  have hi : (TimedLoop.callWrapped s.toTL now_sched now_after res).state.i
      = s.toTL.i + 1 := by
    cases s.toTL.init_time <;> rfl
  have hstate : (SynchronizedTimedLoop.callWrapped s now_sched now_after res).state
      = if (TimedLoop.callWrapped s.toTL now_sched now_after res).state.i
            ≥ s.iterations_per_update
        then synchronize
          { s with toTL := (TimedLoop.callWrapped s.toTL now_sched now_after res).state }
        else
          { s with toTL := (TimedLoop.callWrapped s.toTL now_sched now_after res).state } := by
    cases s.toTL.init_time <;> rfl
  by_cases hge : s.toTL.i + 1 ≥ s.iterations_per_update
  · have hcond : (TimedLoop.callWrapped s.toTL now_sched now_after res).state.i
        ≥ s.iterations_per_update := by rw [hi]; exact hge
    refine ⟨rfl, rfl, fun _ => ?_, fun hlt => absurd hge (not_le.mpr hlt), ?_, ?_⟩
    · rw [hstate, if_pos hcond]; rfl
    · rw [hstate, if_pos hcond]; rfl
    · rw [hstate, if_pos hcond]; rfl
  · have hcond : ¬ ((TimedLoop.callWrapped s.toTL now_sched now_after res).state.i
        ≥ s.iterations_per_update) := by rw [hi]; exact hge
    refine ⟨rfl, rfl, fun hge2 => absurd hge2 hge, fun _ => ?_, ?_, ?_⟩
    · rw [hstate, if_neg hcond]
    · rw [hstate, if_neg hcond]
    · rw [hstate, if_neg hcond]

/-- Witness for C7: a synchronized loop with period 1, resync interval 1
and a lookup returning 2 resynchronizes on its first call (counter back to
0, origin absent, period 2); one with resync interval 5 keeps the plain
wrapper's state after its first call. -/
theorem stl_call_spec_witness :
    (SynchronizedTimedLoop.callWrapped
        { toTL := TimedLoop.init 1, iterations_per_update := 1,
          timestep_lookup_fn := fun _ => 2 } 0 0 true).state.toTL
      = { i := 0, dt := 2, init_time := none } ∧
    (SynchronizedTimedLoop.callWrapped
        { toTL := TimedLoop.init 1, iterations_per_update := 5,
          timestep_lookup_fn := fun _ => 2 } 0 0 true).state.toTL
      = (TimedLoop.callWrapped (TimedLoop.init 1) 0 0 true).state :=
  ⟨(stl_call_spec
      { toTL := TimedLoop.init 1, iterations_per_update := 1,
        timestep_lookup_fn := fun _ => 2 } 0 0 true).2.2.1
      (by norm_num [TimedLoop.init]),
   (stl_call_spec
      { toTL := TimedLoop.init 1, iterations_per_update := 5,
        timestep_lookup_fn := fun _ => 2 } 0 0 true).2.2.2.1
      (by norm_num [TimedLoop.init])⟩

/-- C6: with a parent channel present, `handle_messages` with an absent
target is non-blocking and returns whether a message was handled: an empty
channel yields False with the state unchanged; otherwise exactly the head
item is received (the rest of the channel is untouched), and the call
yields True — with the stop flag set and no dispatch when the item is the
stop sentinel, and with the item dispatched through `process_message`
(whose failure propagates) otherwise. -/
theorem handle_messages_spec (s : MPState) (q : Chan)
    (h : s.toPM.link_to_parent = some q) :
    (q = [] → handle_messages s none = Except.ok (false, s)) ∧
    (∀ item rest, q = item :: rest →
      (msg_is_stop_signal item = true →
        handle_messages s none = Except.ok (true,
          { s with toPM := { s.toPM with link_to_parent := some rest },
                   should_stop := true })) ∧
      (∀ v, msg_is_stop_signal item = false →
        process_message
            { s with toPM := { s.toPM with link_to_parent := some rest } } item
          = Except.ok v →
        handle_messages s none = Except.ok (true,
          { s with toPM := { s.toPM with link_to_parent := some rest } })) ∧
      (∀ e, msg_is_stop_signal item = false →
        process_message
            { s with toPM := { s.toPM with link_to_parent := some rest } } item
          = Except.error e →
        handle_messages s none = Except.error e)) := by
  constructor
  · rintro rfl
    simp [handle_messages, there_is_a_new_message, poll, h]
  · rintro item rest rfl
    have hpoll : there_is_a_new_message s none = Except.ok true := by
      simp [there_is_a_new_message, poll, h]
    have hrecv : recvMP s none = Except.ok (item,
        { s with toPM := { s.toPM with link_to_parent := some rest } }) := by
      simp [recvMP, recv, recvFrom, h]
    refine ⟨?_, ?_, ?_⟩
    · intro hstop
      simp [handle_messages, hpoll, hrecv, hstop]
    · intro v hstop hpm
      simp [handle_messages, hpoll, hrecv, hstop, hpm]
    · intro e hstop hpm
      simp [handle_messages, hpoll, hrecv, hstop, hpm]

/-- A messenger whose parent channel holds a single stop sentinel. -/
def mpParentStop : MPState :=
  MessengerProcess.init "w" (some [ChanItem.transport MPTransport.STOP])

/-- A messenger whose parent channel is empty. -/
def mpParentEmpty : MPState :=
  MessengerProcess.init "w" (some [])

/-- A heartbeat message item. -/
def hbItem : ChanItem :=
  ChanItem.message { type := Signal.transport MPTransport.HEARTBEAT, fields := [] }

/-- A messenger whose parent channel holds a single heartbeat message. -/
def mpParentHB : MPState :=
  MessengerProcess.init "w" (some [hbItem])

/-- Witness for C6 at the three concrete channel contents: empty, a stop
sentinel, and a heartbeat message. -/
theorem handle_messages_spec_witness :
    handle_messages mpParentEmpty none = Except.ok (false, mpParentEmpty) ∧
    handle_messages mpParentStop none = Except.ok (true,
      { mpParentStop with
          toPM := { mpParentStop.toPM with link_to_parent := some [] },
          should_stop := true }) ∧
    handle_messages mpParentHB none = Except.ok (true,
      { mpParentHB with
          toPM := { mpParentHB.toPM with link_to_parent := some [] } }) :=
  ⟨(handle_messages_spec mpParentEmpty [] rfl).1 rfl,
   ((handle_messages_spec mpParentStop [ChanItem.transport MPTransport.STOP]
       rfl).2 (ChanItem.transport MPTransport.STOP) [] rfl).1 rfl,
   ((handle_messages_spec mpParentHB [hbItem] rfl).2 hbItem [] rfl).2.1
     Val.vNone rfl rfl⟩

/-- The queue of items waiting on the channel `handle_messages` /
`get_messages` address for a given target. -/
def channelItems (s : MPState) (pn : Option String) : Option Chan :=
  match pn with
  | none => s.toPM.link_to_parent
  | some n => (s.toPM.ext_proc.lookup n).map (fun ref => ref.link_to_child_in)

/-- A successful receive pops exactly the head of the addressed channel
and never touches the stop flag. -/
theorem recvMP_ok_shape (s : MPState) (pn : Option String) (item : ChanItem)
    (s' : MPState) (h : recvMP s pn = Except.ok (item, s')) :
    (∃ rest, channelItems s pn = some (item :: rest)) ∧
    s'.should_stop = s.should_stop := by
  cases pn with
  | none =>
      cases hl : s.toPM.link_to_parent with
      | none => simp [recvMP, recv, recvFrom, hl] at h
      | some q =>
          cases q with
          | nil => simp [recvMP, recv, recvFrom, hl] at h
          | cons a rest =>
              simp [recvMP, recv, recvFrom, hl] at h
              obtain ⟨h1, h2⟩ := h
              subst h1
              refine ⟨⟨rest, by simp [channelItems, hl]⟩, ?_⟩
              rw [← h2]
  | some n =>
      cases hl : s.toPM.ext_proc.lookup n with
      | none => simp [recvMP, recv, recvFrom, hl] at h
      | some ref =>
          cases hq : ref.link_to_child_in with
          | nil => simp [recvMP, recv, recvFrom, hl, hq] at h
          | cons a rest =>
              simp [recvMP, recv, recvFrom, hl, hq] at h
              obtain ⟨h1, h2⟩ := h
              subst h1
              refine ⟨⟨rest, by simp [channelItems, hl, hq]⟩, ?_⟩
              rw [← h2]

/-- Only the bare `MP_TRANSPORT.STOP` item passes the stop-sentinel
test. -/
theorem stop_signal_shape (item : ChanItem)
    (h : msg_is_stop_signal item = true) :
    item = ChanItem.transport MPTransport.STOP := by
  cases item with
  | transport t =>
      cases t with
      | STOP => rfl
      | HEARTBEAT => simp [msg_is_stop_signal] at h
  | message m => simp [msg_is_stop_signal] at h
  | raw v => simp [msg_is_stop_signal] at h

/-- C8: the stop flag is false at construction and monotone across every
operation of the class: `handle_messages` never resets a true flag and
only sets it when the head of the addressed channel is the stop sentinel;
`get_messages` preserves it exactly; `add_signal`, `setup`,
`loop_routine`, `teardown` and `heartbeat` leave it exactly as it was
(`process_message` and `should_stop_loop` return values and do not touch
the state at all, as their types show). -/
theorem should_stop_monotone :
    (∀ name link, (MessengerProcess.init name link).should_stop = false) ∧
    (∀ s pn b s', handle_messages s pn = Except.ok (b, s') →
      (s.should_stop = true → s'.should_stop = true) ∧
      (s'.should_stop = true → s.should_stop = true ∨
        ∃ rest, channelItems s pn
          = some (ChanItem.transport MPTransport.STOP :: rest))) ∧
    (∀ s pn o s', get_messages s pn = Except.ok (o, s') →
      s'.should_stop = s.should_stop) ∧
    (∀ s sg fn, (add_signal s sg fn).should_stop = s.should_stop) ∧
    (∀ s : MPState, (setup s).should_stop = s.should_stop ∧
      (loop_routine s).should_stop = s.should_stop ∧
      (teardown s).should_stop = s.should_stop ∧
      (heartbeatOp s).should_stop = s.should_stop) := by
  refine ⟨fun name link => rfl, ?_, ?_, ?_, fun s => ⟨rfl, rfl, rfl, rfl⟩⟩
  · intro s pn b s' h
    unfold handle_messages at h
    cases hpoll : there_is_a_new_message s pn with
    | error e => rw [hpoll] at h; simp at h
    | ok tb =>
        rw [hpoll] at h
        cases tb with
        | false =>
            simp at h
            obtain ⟨hb, hs⟩ := h
            subst hs
            exact ⟨fun ht => ht, fun ht => Or.inl ht⟩
        | true =>
            cases hrecv : recvMP s pn with
            | error e => rw [hrecv] at h; simp at h
            | ok pair =>
                obtain ⟨item, s1⟩ := pair
                rw [hrecv] at h
                have hshape := recvMP_ok_shape s pn item s1 hrecv
                cases hstop : msg_is_stop_signal item with
                | true =>
                    simp [hstop] at h
                    obtain ⟨hb, hs⟩ := h
                    subst hs
                    refine ⟨fun _ => rfl, fun _ => Or.inr ?_⟩
                    obtain ⟨rest, hch⟩ := hshape.1
                    rw [stop_signal_shape item hstop] at hch
                    exact ⟨rest, hch⟩
                | false =>
                    simp [hstop] at h
                    cases hpm : process_message s1 item with
                    | error e => rw [hpm] at h; simp at h
                    | ok v =>
                        rw [hpm] at h
                        simp at h
                        obtain ⟨hb, hs⟩ := h
                        subst hs
                        rw [hshape.2]
                        exact ⟨fun ht => ht, fun ht => Or.inl ht⟩
  · intro s pn o s' h
    unfold get_messages at h
    cases hpoll : there_is_a_new_message s pn with
    | error e => rw [hpoll] at h; simp at h
    | ok tb =>
        rw [hpoll] at h
        cases tb with
        | false =>
            simp at h
            obtain ⟨ho, hs⟩ := h
            subst hs
            rfl
        | true =>
            cases hrecv : recvMP s pn with
            | error e => rw [hrecv] at h; simp at h
            | ok pair =>
                obtain ⟨item, s1⟩ := pair
                rw [hrecv] at h
                simp at h
                obtain ⟨ho, hs⟩ := h
                subst hs
                exact (recvMP_ok_shape s pn item s1 hrecv).2
  · intro s sg fn
    by_cases hl : (s.recognized_signals.lookup sg).isSome
    · simp [add_signal, hl]
    · simp [add_signal, hl]

/-- Witness for C8 at concrete inputs: a fresh messenger's flag is false;
after a `handle_messages` call that turned the flag on, the addressed
channel's head was indeed the stop sentinel; and an empty-channel
`get_messages` call preserves the flag. -/
theorem should_stop_monotone_witness :
    (MessengerProcess.init "m" none).should_stop = false ∧
    (mpParentStop.should_stop = true ∨
      ∃ rest, channelItems mpParentStop none
        = some (ChanItem.transport MPTransport.STOP :: rest)) ∧
    mpParentEmpty.should_stop = mpParentEmpty.should_stop :=
  ⟨should_stop_monotone.1 "m" none,
   (should_stop_monotone.2.1 mpParentStop none true
      { mpParentStop with
          toPM := { mpParentStop.toPM with link_to_parent := some [] },
          should_stop := true } rfl).2 rfl,
   should_stop_monotone.2.2.1 mpParentEmpty none none mpParentEmpty rfl⟩

end MessengerProcessRepo
